import Mathlib

/-!
Verification of the RTuinOS scheduler core (src/RTuinOS/code/RTOS/rtos.c and rtos.h)
against its natural-language specification.

The embedding models machine integers as Nat with explicit `% 256` where the C code
operates on uint8 quantities (task counts, the system time of type uintTime_t, delay
counters) and leaves 16-bit event vectors as plain Nat with bitwise operations.
Arrays are modelled as total functions `Nat → _`; a C array write becomes a pointwise
functional update.  Loops whose bounds come from mutable state are expressed with an
explicit iteration count equal to the number of iterations the C loop performs.
-/

namespace RTuinOS

/-- Event bit of the absolute timer (rtos.h: `RTOS_EVT_ABSOLUTE_TIMER (0x0001<<14)`). -/
def RTOS_EVT_ABSOLUTE_TIMER : Nat := 0x4000

/-- Event bit of the delay timer (rtos.h: `RTOS_EVT_DELAY_TIMER (0x0001<<15)`). -/
def RTOS_EVT_DELAY_TIMER : Nat := 0x8000

/-- Prefill byte for unused stack area (rtos.c: `UNUSED_STACK_PATTERN 0x29`). -/
def UNUSED_STACK_PATTERN : Nat := 0x29

/-- Initial value of the system time `_time = (uintTime_t)-1` with `uintTime_t = uint8_t`,
so 255: the very first timer tick increments it to 0. -/
def time_init : Nat := 255

/-- The task descriptor `rtos_task_t` of rtos.h, restricted to the dynamic scheduling
fields the scheduler core reads and writes (the stack-related static fields are treated
separately by `prepareTaskStack`). -/
structure rtos_task_t where
  prioClass : Nat
  timeDueAt : Nat
  cntDelay : Nat
  postedEventVec : Nat
  eventMask : Nat
  waitForAnyEvent : Bool

/-- The global scheduler state of rtos.c: `_time`, `_activeTaskId`, `_suspendedTaskId`,
`_dueTaskIdAryAry`, `_noDueTasksAry`, `_suspendedTaskIdAry`, `_noSuspendedTasks` and
`rtos_taskAry`.  Arrays are total functions from indices. -/
structure RTOSState where
  time : Nat
  activeTaskId : Nat
  suspendedTaskId : Nat
  dueTaskIdAryAry : Nat → Nat → Nat
  noDueTasksAry : Nat → Nat
  suspendedTaskIdAry : Nat → Nat
  noSuspendedTasks : Nat
  taskAry : Nat → rtos_task_t

/-- Pointwise update of an array modelled as a function. -/
def upd {α : Type} (f : Nat → α) (i : Nat) (v : α) : Nat → α :=
  fun j => if j = i then v else f j

/-- Replace one row of a two-dimensional array. -/
def updRow (f : Nat → Nat → Nat) (i : Nat) (r : Nat → Nat) : Nat → Nat → Nat :=
  fun x => if x = i then r else f x

/-- Update a single cell of a two-dimensional array. -/
def upd2 (f : Nat → Nat → Nat) (i j : Nat) (v : Nat) : Nat → Nat → Nat :=
  updRow f i (upd (f i) j v)

/-- Sequential loop `for(idxTask=0; idxTask<n; ++idxTask) a[idxTask] = a[idxTask+1];`
from `waitForEvent` / `suspendTaskTillTime` (removal of the due-list head), unrolled
with an explicit iteration count: `copyUpGo a idx fuel` performs `fuel` iterations
starting at index `idx`. -/
def copyUpGo : (Nat → Nat) → Nat → Nat → (Nat → Nat)
  | a, _, 0 => a
  | a, idx, fuel + 1 => copyUpGo (upd a idx (a (idx + 1))) (idx + 1) fuel

/-- The due-list head-removal loop of the wait services: `n` iterations from index 0. -/
def copyUpLoop (a : Nat → Nat) (n : Nat) : Nat → Nat :=
  copyUpGo a 0 n

/-- Sequential loop `for(u=idxSuspTask; u<n; ++u)
`_suspendedTaskIdAry[idxSuspTask] = _suspendedTaskIdAry[idxSuspTask+1];`
from `onTimerTic` (note: the loop body indexes with `idxSuspTask`, not with the loop
variable `u`, exactly as the source does): every iteration performs the same write. -/
def compactGo : (Nat → Nat) → Nat → Nat → (Nat → Nat)
  | a, _, 0 => a
  | a, idxSuspTask, fuel + 1 => compactGo (upd a idxSuspTask (a (idxSuspTask + 1))) idxSuspTask fuel

/-- The suspended-list compaction of `onTimerTic`, iterating `u` from `idxSuspTask`
while `u < n`, i.e. `n - idxSuspTask` iterations. -/
def compactSuspended (a : Nat → Nat) (idxSuspTask n : Nat) : Nat → Nat :=
  compactGo a idxSuspTask (n - idxSuspTask)

/-- The active-task search loop shared by `waitForEvent`, `suspendTaskTillTime` and
`onTimerTic`: `for(idxPrio=RTOS_NO_PRIO_CLASSES-1; idxPrio>=0; --idxPrio)
if(_noDueTasksAry[idxPrio] > 0) { take _dueTaskIdAryAry[idxPrio][0]; break; }`.
`pickDue nd due k` scans classes `k-1`, `k-2`, …, `0` and yields the head of the
first non-empty due list, or `none` when all scanned lists are empty. -/
def pickDue (noDue : Nat → Nat) (due : Nat → Nat → Nat) : Nat → Option Nat
  | 0 => none
  | k + 1 => if noDue k > 0 then some (due k 0) else pickDue noDue due k

/-- Embedding of `static void suspendTaskTillTime(uintTime_t deltaTimeTillRelease)` of
rtos.c (the body of the software interrupt `rtos_suspendTaskTillTime`), parameterized by
the compile-time configuration `NP = RTOS_NO_PRIO_CLASSES` and `NT = RTOS_NO_TASKS`
(`IDLE_TASK_ID = RTOS_NO_TASKS`).  All uint8 arithmetic is taken modulo 256. -/
def suspendTaskTillTime (NP NT : Nat) (deltaTimeTillRelease : Nat) (s : RTOSState) :
    RTOSState :=
  let pT := s.taskAry s.activeTaskId
  let prio := pT.prioClass
  let noDueNow := (s.noDueTasksAry prio + 255) % 256
  let nd1 := upd s.noDueTasksAry prio noDueNow
  let due1 := updRow s.dueTaskIdAryAry prio (copyUpLoop (s.dueTaskIdAryAry prio) noDueNow)
  let pT1 := { pT with timeDueAt := (pT.timeDueAt + deltaTimeTillRelease) % 256
                     , eventMask := RTOS_EVT_ABSOLUTE_TIMER
                     , waitForAnyEvent := true }
  let taskAry1 := upd s.taskAry s.activeTaskId pT1
  let noSusp1 := (s.noSuspendedTasks + 1) % 256
  let susp1 := upd s.suspendedTaskIdAry noSusp1 s.activeTaskId
  let active1 := (pickDue nd1 due1 NP).getD NT
  { s with dueTaskIdAryAry := due1, noDueTasksAry := nd1, taskAry := taskAry1
         , noSuspendedTasks := noSusp1, suspendedTaskIdAry := susp1
         , suspendedTaskId := s.activeTaskId, activeTaskId := active1 }

/-- Embedding of `static void waitForEvent(uint16_t eventMask, bool all, uintTime_t
timeout)` of rtos.c (the body of the software interrupt `rtos_waitForEvent`).  The
`timeout` guard reproduces `if((uintTime_t)(timeout+1) != 0) ++timeout;` on uint8. -/
def waitForEvent (NP NT : Nat) (eventMask : Nat) (all : Bool) (timeout : Nat)
    (s : RTOSState) : RTOSState :=
  let pT := s.taskAry s.activeTaskId
  let prio := pT.prioClass
  let noDueNow := (s.noDueTasksAry prio + 255) % 256
  let nd1 := upd s.noDueTasksAry prio noDueNow
  let due1 := updRow s.dueTaskIdAryAry prio (copyUpLoop (s.dueTaskIdAryAry prio) noDueNow)
  let timeout1 := if (timeout + 1) % 256 != 0 then (timeout + 1) % 256 else timeout
  let pT1 := { pT with cntDelay := timeout1
                     , eventMask := eventMask
                     , waitForAnyEvent := !all }
  let taskAry1 := upd s.taskAry s.activeTaskId pT1
  let noSusp1 := (s.noSuspendedTasks + 1) % 256
  let susp1 := upd s.suspendedTaskIdAry noSusp1 s.activeTaskId
  let active1 := (pickDue nd1 due1 NP).getD NT
  { s with dueTaskIdAryAry := due1, noDueTasksAry := nd1, taskAry := taskAry1
         , noSuspendedTasks := noSusp1, suspendedTaskIdAry := susp1
         , suspendedTaskId := s.activeTaskId, activeTaskId := active1 }

/-- The timer part of one iteration of the inspection loop of `onTimerTic`: set the
absolute-timer event bit when the (already incremented) system time equals
`timeDueAt`, and serve the delay counter: a positive counter is decremented and the
delay-timer event bit is set when it reaches zero. -/
def serveTimers (time : Nat) (pT : rtos_task_t) : rtos_task_t :=
  let posted1 := if time == pT.timeDueAt
                 then pT.postedEventVec ||| RTOS_EVT_ABSOLUTE_TIMER
                 else pT.postedEventVec
  let cnt1 := if pT.cntDelay > 0 then pT.cntDelay - 1 else pT.cntDelay
  let posted2 := if pT.cntDelay > 0 && cnt1 == 0
                 then posted1 ||| RTOS_EVT_DELAY_TIMER
                 else posted1
  { pT with postedEventVec := posted2, cntDelay := cnt1 }

/-- The release decision of `onTimerTic`:
`eventVec = pT->postedEventVec & pT->eventMask` (with the event vector as updated by the
timer service of this tick) and the task becomes due iff
`(pT->waitForAnyEvent && eventVec != 0) || (!pT->waitForAnyEvent && eventVec == pT->eventMask)`. -/
def releaseCond (pT1 : rtos_task_t) : Bool :=
  let eventVec := pT1.postedEventVec &&& pT1.eventMask
  (pT1.waitForAnyEvent && eventVec != 0)
    || (!pT1.waitForAnyEvent && eventVec == pT1.eventMask)

/-- One iteration of the suspended-task inspection loop of `onTimerTic`, for loop index
`idxSuspTask`.  The state's `time` field already holds the incremented system time (the
increment `++_time` precedes the loop).  Returns the new state and whether the inspected
task was made due in this iteration. -/
def tickTaskStep (s : RTOSState) (idxSuspTask : Nat) : RTOSState × Bool :=
  let tid := s.suspendedTaskIdAry idxSuspTask
  let pT1 := serveTimers s.time (s.taskAry tid)
  let s1 := { s with taskAry := upd s.taskAry tid pT1 }
  if releaseCond pT1 then
    let prio := pT1.prioClass
    let nd := s1.noDueTasksAry prio
    let s2 := { s1 with dueTaskIdAryAry := upd2 s1.dueTaskIdAryAry prio nd tid
                      , noDueTasksAry := upd s1.noDueTasksAry prio ((nd + 1) % 256) }
    let newCount := (s2.noSuspendedTasks + 255) % 256
    let s3 := { s2 with noSuspendedTasks := newCount
                      , suspendedTaskIdAry :=
                          compactSuspended s2.suspendedTaskIdAry idxSuspTask newCount }
    (s3, true)
  else
    (s1, false)

/-- The suspended-task inspection loop
`for(idxSuspTask=0; idxSuspTask<_noSuspendedTasks; ++idxSuspTask)` of `onTimerTic`.
The bound re-reads `_noSuspendedTasks`, which shrinks when a task is made due; the loop
therefore executes at most as many iterations as the entry value of the counter, which
is passed as `fuel`.  The Boolean accumulates `isNewActiveTask`. -/
def tickLoop : Nat → Nat → RTOSState → Bool → RTOSState × Bool
  | 0, _, s, isNew => (s, isNew)
  | fuel + 1, idx, s, isNew =>
    if idx < s.noSuspendedTasks then
      let r := tickTaskStep s idx
      tickLoop fuel (idx + 1) r.fst (isNew || r.snd)
    else
      (s, isNew)

/-- The active-task re-selection at the end of `onTimerTic`: executed only when
`isNewActiveTask` is set; on the first non-empty priority class (scanned from the
highest) it records the left task in `_suspendedTaskId`, activates the list head and
reports whether the active task actually changed; when no class is non-empty the loop
falls through leaving the state and flag unchanged. -/
def tickPickStage (NP : Nat) (s : RTOSState) (isNewActiveTask : Bool) :
    RTOSState × Bool :=
  if isNewActiveTask then
    match pickDue s.noDueTasksAry s.dueTaskIdAryAry NP with
    | some t =>
      ({ s with suspendedTaskId := s.activeTaskId, activeTaskId := t },
       t != s.activeTaskId)
    | none => (s, isNewActiveTask)
  else
    (s, isNewActiveTask)

/-- Embedding of `static bool onTimerTic(void)` of rtos.c: increment the cyclic system
time, inspect all suspended tasks, and re-select the active task if some task became
due.  Returns the new state and the task-switch flag. -/
def onTimerTic (NP : Nat) (s : RTOSState) : RTOSState × Bool :=
  let s0 := { s with time := (s.time + 1) % 256 }
  let r := tickLoop s0.noSuspendedTasks 0 s0 false
  tickPickStage NP r.fst r.snd

/-- Bounded membership test: does `tid` occur in the suspended list
`_suspendedTaskIdAry[0.._noSuspendedTasks)`? -/
def taskInSuspendedList (s : RTOSState) (tid : Nat) : Bool :=
  (List.range s.noSuspendedTasks).any (fun i => s.suspendedTaskIdAry i == tid)

/-- Bounded membership test: does `tid` occur in some due list
`_dueTaskIdAryAry[p][0.._noDueTasksAry[p])` for `p < NP`? -/
def taskInDueLists (NP : Nat) (s : RTOSState) (tid : Nat) : Bool :=
  (List.range NP).any (fun p =>
    (List.range (s.noDueTasksAry p)).any (fun i => s.dueTaskIdAryAry p i == tid))

/-- The push sequence of `prepareTaskStack`: each list element is written through
`* sp-- = v`, so element `k` lands at address offset `sp - k`.  Returns the final
memory and the final stack pointer offset. -/
def pushBytes : (Nat → Nat) → Nat → List Nat → (Nat → Nat) × Nat
  | m, sp, [] => (m, sp)
  | m, sp, v :: vs => pushBytes (upd m sp v) (sp - 1) vs

/-- The prefill loop of `prepareTaskStack`:
`while(sp >= pEmptyTaskStack) * sp-- = UNUSED_STACK_PATTERN;`, filling offsets
`sp`, `sp-1`, …, `0`. -/
def fillPattern (m : Nat → Nat) : Nat → (Nat → Nat)
  | 0 => upd m 0 UNUSED_STACK_PATTERN
  | k + 1 => fillPattern (upd m (k + 1) UNUSED_STACK_PATTERN) k

/-- The byte sequence `prepareTaskStack` pushes, top of stack first: 3 guard bytes 0x00
(the reset address 0x00000), the 3 bytes of the task entry point (LSB first from the
top), and the initial register values r0 = 0, SREG = 0x80, r1 = 0, r2..r23 = 0 (the
two `for` loops of the source become `List.replicate`) and r26..r31 = 0. -/
def initialContextImage (taskEntryPoint : Nat) : List Nat :=
  [0x00, 0x00, 0x00]
  ++ [taskEntryPoint &&& 0x000000ff
     , (taskEntryPoint &&& 0x0000ff00) >>> 8
     , (taskEntryPoint &&& 0x00ff0000) >>> 16]
  ++ [0, 0x80, 0]
  ++ List.replicate 22 0
  ++ List.replicate 6 0

/-- Embedding of `static uint8_t *prepareTaskStack(uint8_t *pEmptyTaskStack, uint16_t
stackSize, rtos_taskFunction_t taskEntryPoint, uint16_t taskParam)` of rtos.c.
Memory is addressed by offsets into the stack area; the function returns the memory
after preparation together with the returned stack-pointer offset.  It pushes
`initialContextImage` starting at the top offset `stackSize - 1` and prefills
everything below with `UNUSED_STACK_PATTERN` (`taskParam` does not appear in the
prepared image: registers r24/r25 are not part of a saved context). -/
def prepareTaskStack (m0 : Nat → Nat) (stackSize : Nat) (taskEntryPoint : Nat)
    (_taskParam : Nat) : (Nat → Nat) × Nat :=
  let sp := stackSize - 1
  let r := pushBytes m0 sp (initialContextImage taskEntryPoint)
  let retCode := r.snd
  (fillPattern r.fst retCode, retCode)

/-- A stable state for C1: task 0 is active and, as the code keeps it, at the head of
the due list of its priority class; no task is suspended; the suspended array still
holds a stale value 7 in every slot. -/
def sC1 : RTOSState :=
  { time := 0, activeTaskId := 0, suspendedTaskId := 0
  , dueTaskIdAryAry := fun _ _ => 0
  , noDueTasksAry := upd (fun _ => 0) 0 1
  , suspendedTaskIdAry := fun _ => 7
  , noSuspendedTasks := 0
  , taskAry := fun _ =>
      { prioClass := 0, timeDueAt := 0, cntDelay := 0, postedEventVec := 0
      , eventMask := RTOS_EVT_ABSOLUTE_TIMER, waitForAnyEvent := true } }

/-- A stable state for C2/C7/C10: task 0 active, at the head of its due list, with
`timeDueAt = 17`. -/
def sC2 : RTOSState :=
  { time := 0, activeTaskId := 0, suspendedTaskId := 0
  , dueTaskIdAryAry := fun _ _ => 0
  , noDueTasksAry := upd (fun _ => 0) 0 1
  , suspendedTaskIdAry := fun _ => 7
  , noSuspendedTasks := 0
  , taskAry := fun _ =>
      { prioClass := 0, timeDueAt := 17, cntDelay := 0, postedEventVec := 0
      , eventMask := RTOS_EVT_ABSOLUTE_TIMER, waitForAnyEvent := true } }

/-- A state for C4: the idle task (ID 1 in the one-task configuration) is active; its
descriptor's priority class is 0 (the application leaves the idle fields null); the due
lists are all empty. -/
def sC4 : RTOSState :=
  { time := 0, activeTaskId := 1, suspendedTaskId := 0
  , dueTaskIdAryAry := fun _ _ => 13
  , noDueTasksAry := fun _ => 0
  , suspendedTaskIdAry := fun _ => 9
  , noSuspendedTasks := 0
  , taskAry := fun _ =>
      { prioClass := 0, timeDueAt := 0, cntDelay := 0, postedEventVec := 0
      , eventMask := 0, waitForAnyEvent := false } }

/-- State for the C5 witness: one suspended task 0 waiting for the broadcast event bit
0x0001, which has already been posted. -/
def sC5 : RTOSState :=
  { time := 4, activeTaskId := 1, suspendedTaskId := 0
  , dueTaskIdAryAry := fun _ _ => 0
  , noDueTasksAry := fun _ => 0
  , suspendedTaskIdAry := fun _ => 0
  , noSuspendedTasks := 1
  , taskAry := fun _ =>
      { prioClass := 0, timeDueAt := 9, cntDelay := 0, postedEventVec := 0x0001
      , eventMask := 0x0001, waitForAnyEvent := true } }

/-- State for the C6 witness: time is at its initial value 255; the single suspended
task 0 has delay counter 3. -/
def sC6 : RTOSState :=
  { time := 255, activeTaskId := 1, suspendedTaskId := 0
  , dueTaskIdAryAry := fun _ _ => 0
  , noDueTasksAry := fun _ => 0
  , suspendedTaskIdAry := fun _ => 0
  , noSuspendedTasks := 1
  , taskAry := fun _ =>
      { prioClass := 0, timeDueAt := 9, cntDelay := 3, postedEventVec := 0
      , eventMask := RTOS_EVT_DELAY_TIMER, waitForAnyEvent := true } }

/-- State for the C6 counterexample: two suspended tasks, 0 at slot 0 and 1 at slot 1,
both with `timeDueAt = 5`; task 1 additionally has delay counter 3; the next tick
increments the time from 4 to 5, so both absolute timers are due on that tick. -/
def sC6skip : RTOSState :=
  { time := 4, activeTaskId := 2, suspendedTaskId := 2
  , dueTaskIdAryAry := fun _ _ => 0
  , noDueTasksAry := fun _ => 0
  , suspendedTaskIdAry := upd (upd (fun _ => 0) 0 0) 1 1
  , noSuspendedTasks := 2
  , taskAry := fun t =>
      if t = 0 then
        { prioClass := 0, timeDueAt := 5, cntDelay := 0, postedEventVec := 0
        , eventMask := RTOS_EVT_ABSOLUTE_TIMER, waitForAnyEvent := true }
      else
        { prioClass := 0, timeDueAt := 5, cntDelay := 3, postedEventVec := 0
        , eventMask := RTOS_EVT_ABSOLUTE_TIMER, waitForAnyEvent := true } }

/-- State for the C8 witness: two priority classes, two tasks (`NT = 2`); task 0 (class
1) is active and head of the class-1 due list, task 1 (class 0) is head of the class-0
due list. -/
def sC8 : RTOSState :=
  { time := 0, activeTaskId := 0, suspendedTaskId := 0
  , dueTaskIdAryAry := fun p _ => if p = 1 then 0 else 1
  , noDueTasksAry := fun p => if p ≤ 1 then 1 else 0
  , suspendedTaskIdAry := fun _ => 9
  , noSuspendedTasks := 0
  , taskAry := fun t =>
      if t = 0 then
        { prioClass := 1, timeDueAt := 0, cntDelay := 0, postedEventVec := 0
        , eventMask := RTOS_EVT_DELAY_TIMER, waitForAnyEvent := true }
      else
        { prioClass := 0, timeDueAt := 0, cntDelay := 0, postedEventVec := 0
        , eventMask := RTOS_EVT_DELAY_TIMER, waitForAnyEvent := true } }

/-- State for the tick part of the C8 witness: one non-empty due list with head 5. -/
def sC8tick : RTOSState :=
  { time := 0, activeTaskId := 2, suspendedTaskId := 0
  , dueTaskIdAryAry := fun _ _ => 5
  , noDueTasksAry := fun _ => 1
  , suspendedTaskIdAry := fun _ => 9
  , noSuspendedTasks := 0
  , taskAry := fun _ =>
      { prioClass := 0, timeDueAt := 0, cntDelay := 0, postedEventVec := 0
      , eventMask := 0, waitForAnyEvent := true } }

/-- Modelled from the spec: the overrun accounting of the released scheduler is missing
from the sources.  rtos.c posts the absolute-timer event only at exact equality of the
cyclic time, carries the comment `@todo Here, we need some code for task overrun
detection`, and contains no overrun counter; `rtos_getTaskOverrunCounter` exists only
as a declaration in rtos.h and as calls in the test applications (tc05, tc10, tc12).
Following spec section 4.1, a task waking on its absolute-timer event is overrun
exactly when the current tick is strictly after `timeDueAt` under signed interpretation
of the cyclic 8-bit difference: the difference, reduced mod 256, is positive as a
signed byte. -/
def timeIsStrictlyAfter (time timeDueAt : Nat) : Bool :=
  let d := (time + 256 - timeDueAt % 256) % 256
  0 < d && d < 128

/-- Modelled from the spec: the per-task overrun counter (a uint8, as in the
`uint8_t rtos_getTaskOverrunCounter` declaration) saturates at 255 instead of
wrapping when a further overrun is flagged. -/
def overrunCounterUpdate (cnt : Nat) (flagged : Bool) : Nat :=
  if flagged then (if cnt < 255 then cnt + 1 else cnt) else cnt

/-- Modelled from the spec: `rtos_getTaskOverrunCounter(idxTask, doReset)` returns the
task's overrun count, with an optional reset; the result pair is (returned value,
counter value after the call). -/
def rtos_getTaskOverrunCounter (cnt : Nat) (doReset : Bool) : Nat × Nat :=
  (cnt, if doReset then 0 else cnt)

@[simp]
theorem upd_self {α : Type} (f : Nat → α) (i : Nat) (v : α) : upd f i v i = v := by
  simp [upd]

theorem upd_ne {α : Type} (f : Nat → α) (i j : Nat) (v : α) (h : j ≠ i) :
    upd f i v j = f j := by
  simp [upd, h]

theorem pickDue_eq_none (nd : Nat → Nat) (due : Nat → Nat → Nat) :
    ∀ NP, (∀ p, p < NP → nd p = 0) → pickDue nd due NP = none := by
  intro NP
  induction NP with
  | zero => intro _; rfl
  | succ k ih =>
    intro h
    unfold pickDue
    rw [if_neg]
    · exact ih (fun p hp => h p (Nat.lt_succ_of_lt hp))
    · have := h k (Nat.lt_succ_self k); omega

theorem pickDue_eq_head (nd : Nat → Nat) (due : Nat → Nat → Nat) :
    ∀ NP p, p < NP → 0 < nd p → (∀ q, p < q → q < NP → nd q = 0) →
      pickDue nd due NP = some (due p 0) := by
  intro NP
  induction NP with
  | zero => intro p hp; exact absurd hp (Nat.not_lt_zero p)
  | succ k ih =>
    intro p hp h0 ha
    unfold pickDue
    by_cases hk : nd k > 0
    · rw [if_pos hk]
      have hpk : p = k := by
        by_contra hne
        have hplt : p < k := by omega
        have := ha k hplt (Nat.lt_succ_self k)
        omega
      subst hpk; rfl
    · rw [if_neg hk]
      have hplt : p < k := by
        have : p ≠ k := by intro heq; subst heq; omega
        omega
      exact ih p hplt h0 (fun q h1 h2 => ha q h1 (Nat.lt_succ_of_lt h2))

theorem pickDue_getD_none (nd : Nat → Nat) (due : Nat → Nat → Nat) (NP NT : Nat)
    (h : ∀ p, p < NP → nd p = 0) : (pickDue nd due NP).getD NT = NT := by
  rw [pickDue_eq_none nd due NP h]; rfl

theorem pickDue_getD_head (nd : Nat → Nat) (due : Nat → Nat → Nat) (NP NT p : Nat)
    (hp : p < NP) (h0 : 0 < nd p) (ha : ∀ q, p < q → q < NP → nd q = 0) :
    (pickDue nd due NP).getD NT = due p 0 := by
  rw [pickDue_eq_head nd due NP p hp h0 ha]; rfl

theorem tickTaskStep_time (s : RTOSState) (idx : Nat) :
    (tickTaskStep s idx).fst.time = s.time := by
  dsimp only [tickTaskStep]
  repeat' split
  all_goals rfl

theorem tickLoop_time :
    ∀ fuel idx (s : RTOSState) isNew, (tickLoop fuel idx s isNew).fst.time = s.time := by
  intro fuel
  induction fuel with
  | zero => intros; rfl
  | succ n ih =>
    intro idx s isNew
    dsimp only [tickLoop]
    split
    · rw [ih, tickTaskStep_time]
    · rfl

theorem tickPickStage_time (NP : Nat) (s : RTOSState) (b : Bool) :
    (tickPickStage NP s b).fst.time = s.time := by
  unfold tickPickStage
  split
  · split <;> rfl
  · rfl

theorem pushBytes_snd : ∀ (l : List Nat) (m : Nat → Nat) (sp : Nat),
    (pushBytes m sp l).snd = sp - l.length := by
  intro l
  induction l with
  | nil => intro m sp; simp [pushBytes]
  | cons v vs ih =>
    intro m sp
    show (pushBytes (upd m sp v) (sp - 1) vs).snd = sp - (vs.length + 1)
    rw [ih, Nat.sub_sub]
    congr 1
    omega

theorem pushBytes_above : ∀ (l : List Nat) (m : Nat → Nat) (sp i : Nat), sp < i →
    (pushBytes m sp l).fst i = m i := by
  intro l
  induction l with
  | nil => intro m sp i _; rfl
  | cons v vs ih =>
    intro m sp i h
    show (pushBytes (upd m sp v) (sp - 1) vs).fst i = m i
    rw [ih _ _ _ (by omega)]
    exact upd_ne m sp i v (by omega)

theorem pushBytes_below : ∀ (l : List Nat) (m : Nat → Nat) (sp i : Nat),
    i + l.length ≤ sp → (pushBytes m sp l).fst i = m i := by
  intro l
  induction l with
  | nil => intro m sp i _; rfl
  | cons v vs ih =>
    intro m sp i h
    have hlen : vs.length + 1 = (v :: vs).length := rfl
    show (pushBytes (upd m sp v) (sp - 1) vs).fst i = m i
    rw [ih _ _ _ (by simp at h; omega)]
    exact upd_ne m sp i v (by simp at h; omega)

theorem pushBytes_getD : ∀ (l : List Nat) (m : Nat → Nat) (sp k : Nat),
    k < l.length → l.length ≤ sp + 1 →
    (pushBytes m sp l).fst (sp - k) = l.getD k 0 := by
  intro l
  induction l with
  | nil => intro m sp k hk _; simp at hk
  | cons v vs ih =>
    intro m sp k hk hsp
    show (pushBytes (upd m sp v) (sp - 1) vs).fst (sp - k) = (v :: vs).getD k 0
    match k with
    | 0 =>
      rw [Nat.sub_zero]
      cases vs with
      | nil => exact upd_self m sp v
      | cons w ws =>
        have hsp0 : 0 < sp := by simp at hsp; omega
        rw [pushBytes_above (w :: ws) (upd m sp v) (sp - 1) sp (by omega)]
        exact upd_self m sp v
    | k' + 1 =>
      have hk' : k' < vs.length := by simp at hk; omega
      have hsp' : vs.length ≤ (sp - 1) + 1 := by simp at hsp; omega
      have hpos : sp - (k' + 1) = (sp - 1) - k' := by omega
      rw [hpos, ih (upd m sp v) (sp - 1) k' hk' hsp']
      rfl

theorem fillPattern_gt : ∀ (sp i : Nat) (m : Nat → Nat), sp < i →
    fillPattern m sp i = m i := by
  intro sp
  induction sp with
  | zero =>
    intro i m h
    exact upd_ne m 0 i UNUSED_STACK_PATTERN (by omega)
  | succ k ih =>
    intro i m h
    show fillPattern (upd m (k + 1) UNUSED_STACK_PATTERN) k i = m i
    rw [ih i _ (by omega)]
    exact upd_ne m (k + 1) i UNUSED_STACK_PATTERN (by omega)

theorem fillPattern_le : ∀ (sp i : Nat) (m : Nat → Nat), i ≤ sp →
    fillPattern m sp i = UNUSED_STACK_PATTERN := by
  intro sp
  induction sp with
  | zero =>
    intro i m h
    have : i = 0 := by omega
    subst this
    exact upd_self m 0 UNUSED_STACK_PATTERN
  | succ k ih =>
    intro i m h
    show fillPattern (upd m (k + 1) UNUSED_STACK_PATTERN) k i = UNUSED_STACK_PATTERN
    by_cases hik : i ≤ k
    · exact ih i _ hik
    · have : i = k + 1 := by omega
      subst this
      rw [fillPattern_gt k (k + 1) _ (by omega)]
      exact upd_self m (k + 1) UNUSED_STACK_PATTERN

theorem initialContextImage_length (e : Nat) : (initialContextImage e).length = 37 := by
  simp [initialContextImage]

theorem prepareTaskStack_snd (m0 : Nat → Nat) (stackSize e p : Nat) :
    (prepareTaskStack m0 stackSize e p).snd = stackSize - 38 := by
  show (pushBytes m0 (stackSize - 1) (initialContextImage e)).snd = stackSize - 38
  rw [pushBytes_snd, initialContextImage_length, Nat.sub_sub]

theorem prepareTaskStack_byte (m0 : Nat → Nat) (stackSize e p k : Nat)
    (hk : k < 37) (h : 38 ≤ stackSize) :
    (prepareTaskStack m0 stackSize e p).fst (stackSize - 1 - k)
      = (initialContextImage e).getD k 0 := by
  show fillPattern (pushBytes m0 (stackSize - 1) (initialContextImage e)).fst
        (pushBytes m0 (stackSize - 1) (initialContextImage e)).snd (stackSize - 1 - k)
      = (initialContextImage e).getD k 0
  rw [pushBytes_snd, initialContextImage_length]
  rw [fillPattern_gt _ _ _ (by omega)]
  have hpos : stackSize - 1 - k = (stackSize - 1) - k := rfl
  rw [hpos]
  exact pushBytes_getD (initialContextImage e) m0 (stackSize - 1) k
    (by rw [initialContextImage_length]; omega)
    (by rw [initialContextImage_length]; omega)

theorem prepareTaskStack_prefill (m0 : Nat → Nat) (stackSize e p i : Nat)
    (hi : i ≤ stackSize - 38) :
    (prepareTaskStack m0 stackSize e p).fst i = UNUSED_STACK_PATTERN := by
  show fillPattern (pushBytes m0 (stackSize - 1) (initialContextImage e)).fst
        (pushBytes m0 (stackSize - 1) (initialContextImage e)).snd i
      = UNUSED_STACK_PATTERN
  rw [pushBytes_snd, initialContextImage_length]
  exact fillPattern_le _ _ _ (by omega)

/-- Claim C9: for every task stack prepared at initialization, `prepareTaskStack` seeds
the top of the stack area with a 3-byte guard return address equal to the reset address
0x00000 (so a returning task function resets the controller), followed by the 3 bytes of
the task entry-point address (LSB first from the top) and the initial register image
(r0 = 0, SREG = 0x80, r1 = 0, remaining saved registers 0), and every remaining byte of
the stack area below the initial context is filled with the prefill pattern byte 0x29
(`UNUSED_STACK_PATTERN`); the returned stack pointer sits just below the context. -/
theorem C9_prepareTaskStack (m0 : Nat → Nat) (stackSize taskEntryPoint taskParam : Nat)
    (h : 38 ≤ stackSize) :
    (prepareTaskStack m0 stackSize taskEntryPoint taskParam).snd = stackSize - 38
    ∧ (prepareTaskStack m0 stackSize taskEntryPoint taskParam).fst (stackSize - 1) = 0x00
    ∧ (prepareTaskStack m0 stackSize taskEntryPoint taskParam).fst (stackSize - 2) = 0x00
    ∧ (prepareTaskStack m0 stackSize taskEntryPoint taskParam).fst (stackSize - 3) = 0x00
    ∧ (prepareTaskStack m0 stackSize taskEntryPoint taskParam).fst (stackSize - 4)
        = (taskEntryPoint &&& 0x000000ff)
    ∧ (prepareTaskStack m0 stackSize taskEntryPoint taskParam).fst (stackSize - 5)
        = ((taskEntryPoint &&& 0x0000ff00) >>> 8)
    ∧ (prepareTaskStack m0 stackSize taskEntryPoint taskParam).fst (stackSize - 6)
        = ((taskEntryPoint &&& 0x00ff0000) >>> 16)
    ∧ (prepareTaskStack m0 stackSize taskEntryPoint taskParam).fst (stackSize - 7) = 0
    ∧ (prepareTaskStack m0 stackSize taskEntryPoint taskParam).fst (stackSize - 8) = 0x80
    ∧ (prepareTaskStack m0 stackSize taskEntryPoint taskParam).fst (stackSize - 9) = 0
    ∧ (∀ i, i ≤ stackSize - 38 →
        (prepareTaskStack m0 stackSize taskEntryPoint taskParam).fst i
          = UNUSED_STACK_PATTERN) := by
  have b : ∀ k, k < 37 →
      (prepareTaskStack m0 stackSize taskEntryPoint taskParam).fst (stackSize - 1 - k)
        = (initialContextImage taskEntryPoint).getD k 0 :=
    fun k hk => prepareTaskStack_byte m0 stackSize taskEntryPoint taskParam k hk h
  refine ⟨prepareTaskStack_snd m0 stackSize taskEntryPoint taskParam,
          ?_, ?_, ?_, ?_, ?_, ?_, ?_, ?_, ?_,
          fun i hi => prepareTaskStack_prefill m0 stackSize taskEntryPoint taskParam i hi⟩
  · have e0 : stackSize - 1 = stackSize - 1 - 0 := by omega
    rw [e0, b 0 (by omega)]
    rfl
  · have e1 : stackSize - 2 = stackSize - 1 - 1 := by omega
    rw [e1, b 1 (by omega)]
    rfl
  · have e2 : stackSize - 3 = stackSize - 1 - 2 := by omega
    rw [e2, b 2 (by omega)]
    rfl
  · have e3 : stackSize - 4 = stackSize - 1 - 3 := by omega
    rw [e3, b 3 (by omega)]
    rfl
  · have e4 : stackSize - 5 = stackSize - 1 - 4 := by omega
    rw [e4, b 4 (by omega)]
    rfl
  · have e5 : stackSize - 6 = stackSize - 1 - 5 := by omega
    rw [e5, b 5 (by omega)]
    rfl
  · have e6 : stackSize - 7 = stackSize - 1 - 6 := by omega
    rw [e6, b 6 (by omega)]
    rfl
  · have e7 : stackSize - 8 = stackSize - 1 - 7 := by omega
    rw [e7, b 7 (by omega)]
    rfl
  · have e8 : stackSize - 9 = stackSize - 1 - 8 := by omega
    rw [e8, b 8 (by omega)]
    rfl

/-- Concrete witness for C9: a 40-byte stack area, entry point 0x01F2EF. -/
theorem C9_prepareTaskStack_witness :
    (38 : Nat) ≤ 40
    ∧ (prepareTaskStack (fun _ => 0) 40 0x01F2EF 0).snd = 2
    ∧ (prepareTaskStack (fun _ => 0) 40 0x01F2EF 0).fst 39 = 0x00
    ∧ (prepareTaskStack (fun _ => 0) 40 0x01F2EF 0).fst 36 = 0xEF
    ∧ (prepareTaskStack (fun _ => 0) 40 0x01F2EF 0).fst 35 = 0xF2
    ∧ (prepareTaskStack (fun _ => 0) 40 0x01F2EF 0).fst 34 = 0x01
    ∧ (prepareTaskStack (fun _ => 0) 40 0x01F2EF 0).fst 32 = 0x80
    ∧ (prepareTaskStack (fun _ => 0) 40 0x01F2EF 0).fst 1 = 0x29 := by
  have hfull := C9_prepareTaskStack (fun _ => 0) 40 0x01F2EF 0 (by decide)
  exact ⟨by decide, hfull.1, hfull.2.1, hfull.2.2.2.2.1, hfull.2.2.2.2.2.1,
         hfull.2.2.2.2.2.2.1, hfull.2.2.2.2.2.2.2.2.1,
         hfull.2.2.2.2.2.2.2.2.2.2 1 (by decide)⟩

/-- Claim C1 (evaluation at the failing input): after task 0 calls the wait service,
the suspended count is 1 but the caller was stored at index `++_noSuspendedTasks` = 1,
one past the single valid slot 0, which keeps its stale value 7.  Task 0 is therefore
in none of the active slot, the due lists, or the suspended list, refuting the
exactly-one partition at this stable point. -/
theorem C1_partition_violated :
    (waitForEvent 1 1 RTOS_EVT_DELAY_TIMER false 5 sC1).noSuspendedTasks = 1
    ∧ (waitForEvent 1 1 RTOS_EVT_DELAY_TIMER false 5 sC1).activeTaskId ≠ 0
    ∧ taskInDueLists 1 (waitForEvent 1 1 RTOS_EVT_DELAY_TIMER false 5 sC1) 0 = false
    ∧ taskInSuspendedList (waitForEvent 1 1 RTOS_EVT_DELAY_TIMER false 5 sC1) 0 = false
    ∧ (waitForEvent 1 1 RTOS_EVT_DELAY_TIMER false 5 sC1).suspendedTaskIdAry 0 = 7
    ∧ (waitForEvent 1 1 RTOS_EVT_DELAY_TIMER false 5 sC1).suspendedTaskIdAry 1 = 0 := by
  decide

/-- Claim C2 (amended): only `suspendTaskTillTime` advances the caller's `timeDueAt`
field, by the timeout argument modulo the cyclic width 256 of `uintTime_t`; the other
entry point `waitForEvent` leaves `timeDueAt` unchanged for every event mask, including
masks that contain the absolute-timer bit. -/
theorem C2_timeDueAt_advance :
    (∀ NP NT delta s,
       ((suspendTaskTillTime NP NT delta s).taskAry s.activeTaskId).timeDueAt
         = ((s.taskAry s.activeTaskId).timeDueAt + delta) % 256)
  ∧ (∀ NP NT eventMask all timeout s,
       ((waitForEvent NP NT eventMask all timeout s).taskAry s.activeTaskId).timeDueAt
         = (s.taskAry s.activeTaskId).timeDueAt) := by
  constructor
  · intro NP NT delta s
    simp [suspendTaskTillTime, upd]
  · intro NP NT eventMask all timeout s
    simp [waitForEvent, upd]

/-- Claim C2 (counterexample): `rtos_waitForEvent` called with an event mask containing
the absolute-timer bit and timeout 5 leaves the caller's `timeDueAt` at 17 instead of
advancing it to (17 + 5) mod 256 = 22. -/
theorem C2_counterexample :
    ((waitForEvent 1 1 RTOS_EVT_ABSOLUTE_TIMER false 5 sC2).taskAry 0).timeDueAt = 17
    ∧ (17 : Nat) ≠ (17 + 5) % 256 := by
  decide

/-- The delay counter written by the wait service equals `timeout + 1` whenever the
uint8 increment does not wrap, i.e. for `timeout < 255`. -/
theorem waitForEvent_cntDelay_small (NP NT : Nat) (eventMask : Nat) (all : Bool)
    (timeout : Nat) (s : RTOSState) (h : timeout < 255) :
    ((waitForEvent NP NT eventMask all timeout s).taskAry s.activeTaskId).cntDelay
      = timeout + 1 := by
  have hmod : (timeout + 1) % 256 = timeout + 1 := Nat.mod_eq_of_lt (by omega)
  simp [waitForEvent, upd, hmod]

/-- Claim C7 (amended): for every wait-service call with `timeout < 255` the caller's
delay counter is set to `timeout + 1`; at the maximum value 255 the increment is
skipped (see C10). -/
theorem C7_delay_counter (NP NT : Nat) (eventMask : Nat) (all : Bool) (timeout : Nat)
    (s : RTOSState) (h : timeout < 255) :
    ((waitForEvent NP NT eventMask all timeout s).taskAry s.activeTaskId).cntDelay
      = timeout + 1 :=
  waitForEvent_cntDelay_small NP NT eventMask all timeout s h

/-- Claim C7 (counterexample): with the maximum timeout argument 255 the delay counter
is set to 255, which is neither 255 + 1 = 256 nor its uint8 wrap 0. -/
theorem C7_counterexample :
    ((waitForEvent 1 1 RTOS_EVT_DELAY_TIMER false 255 sC2).taskAry 0).cntDelay = 255
    ∧ (255 : Nat) ≠ 255 + 1
    ∧ (255 : Nat) ≠ (255 + 1) % 256 := by
  decide

/-- Claim C10: the wait service guards the `+1` adjustment of the timeout: for the
single input `timeout = 255` (the maximum of `uintTime_t`) the increment would wrap to
0 and is skipped, so the delay counter receives the unchanged maximum 255; for every
smaller timeout the counter is `timeout + 1`; in particular the counter is never set to
0 by a wrap, so a requested timeout is never silently disabled. -/
theorem C10_delay_guard (NP NT : Nat) (eventMask : Nat) (all : Bool) (timeout : Nat)
    (s : RTOSState) (h : timeout ≤ 255) :
    (timeout = 255 →
      ((waitForEvent NP NT eventMask all timeout s).taskAry s.activeTaskId).cntDelay
        = 255)
    ∧ (timeout < 255 →
      ((waitForEvent NP NT eventMask all timeout s).taskAry s.activeTaskId).cntDelay
        = timeout + 1)
    ∧ ((waitForEvent NP NT eventMask all timeout s).taskAry s.activeTaskId).cntDelay
        ≠ 0 := by
  refine ⟨?_, ?_, ?_⟩
  · intro heq
    subst heq
    simp [waitForEvent, upd]
  · intro hlt
    exact waitForEvent_cntDelay_small NP NT eventMask all timeout s hlt
  · by_cases hlt : timeout < 255
    · rw [waitForEvent_cntDelay_small NP NT eventMask all timeout s hlt]
      omega
    · have heq : timeout = 255 := by omega
      subst heq
      simp [waitForEvent, upd]

set_option maxRecDepth 4000 in
/-- Claim C4 (counterexample): with the idle task active, the wait service does not
fail before modifying scheduler state; it runs to completion and modifies the state:
the due count of priority class 0 wraps from 0 to 255, the suspended count becomes 1,
the idle ID 1 is written into the suspended array, and a garbage due-list entry (13)
becomes the active task. -/
theorem C4_counterexample :
    sC4.noDueTasksAry 0 = 0
    ∧ (waitForEvent 1 1 RTOS_EVT_DELAY_TIMER false 5 sC4).noDueTasksAry 0 = 255
    ∧ sC4.noSuspendedTasks = 0
    ∧ (waitForEvent 1 1 RTOS_EVT_DELAY_TIMER false 5 sC4).noSuspendedTasks = 1
    ∧ (waitForEvent 1 1 RTOS_EVT_DELAY_TIMER false 5 sC4).suspendedTaskIdAry 1 = 1
    ∧ (waitForEvent 1 1 RTOS_EVT_DELAY_TIMER false 5 sC4).activeTaskId = 13 := by
  decide

/-- Claim C4 (amended): the wait service contains no check for the idle task; called
while the idle task (ID `NT`) is active, with the due count of the idle descriptor's
priority class at 0 (idle is never in a due list), it proceeds to modify the scheduler
state: the due count wraps from 0 to 255 and the idle ID is inserted into the
suspended array. -/
theorem C4_no_idle_check (NP NT : Nat) (eventMask : Nat) (all : Bool) (timeout : Nat)
    (s : RTOSState) (hidle : s.activeTaskId = NT)
    (hnd : s.noDueTasksAry ((s.taskAry NT).prioClass) = 0) :
    (waitForEvent NP NT eventMask all timeout s).noDueTasksAry
        ((s.taskAry NT).prioClass) = 255
    ∧ (waitForEvent NP NT eventMask all timeout s).noSuspendedTasks
        = (s.noSuspendedTasks + 1) % 256
    ∧ (waitForEvent NP NT eventMask all timeout s).suspendedTaskIdAry
        ((s.noSuspendedTasks + 1) % 256) = NT := by
  subst hidle
  simp [waitForEvent, upd, hnd]

theorem serveTimers_prioClass (t : Nat) (pT : rtos_task_t) :
    (serveTimers t pT).prioClass = pT.prioClass := rfl

theorem serveTimers_eventMask (t : Nat) (pT : rtos_task_t) :
    (serveTimers t pT).eventMask = pT.eventMask := rfl

theorem serveTimers_waitForAnyEvent (t : Nat) (pT : rtos_task_t) :
    (serveTimers t pT).waitForAnyEvent = pT.waitForAnyEvent := rfl

theorem upd2_self (f : Nat → Nat → Nat) (i j v : Nat) : upd2 f i j v i j = v := by
  simp [upd2, updRow, upd]

/-- Claim C5: in the release loop of the tick service, the inspected task is moved to
the due list of its priority class (appended at the tail, with the suspended count
decremented) if and only if `eff = postedEventVec & eventMask` (with the event vector
as updated by this tick) is non-zero when the task waits for any event, or equals the
full mask when it waits for all events; and the `waitForAnyEvent` flag stored by the
wait service is the negation of the caller's all-flag. -/
theorem C5_release_condition :
    (∀ s idx,
      let tid := s.suspendedTaskIdAry idx
      let pT := s.taskAry tid
      let r := tickTaskStep s idx
      let eff := (r.fst.taskAry tid).postedEventVec &&& pT.eventMask
      (r.snd = true ↔
        ((pT.waitForAnyEvent = true ∧ eff ≠ 0)
          ∨ (pT.waitForAnyEvent = false ∧ eff = pT.eventMask)))
      ∧ (r.snd = true →
          r.fst.dueTaskIdAryAry pT.prioClass (s.noDueTasksAry pT.prioClass) = tid
          ∧ r.fst.noDueTasksAry pT.prioClass = (s.noDueTasksAry pT.prioClass + 1) % 256
          ∧ r.fst.noSuspendedTasks = (s.noSuspendedTasks + 255) % 256)
      ∧ (r.snd = false →
          (∀ p, r.fst.noDueTasksAry p = s.noDueTasksAry p)
          ∧ r.fst.noSuspendedTasks = s.noSuspendedTasks
          ∧ (∀ i, r.fst.suspendedTaskIdAry i = s.suspendedTaskIdAry i)))
  ∧ (∀ NP NT eventMask all timeout s,
      ((waitForEvent NP NT eventMask all timeout s).taskAry s.activeTaskId).waitForAnyEvent
        = !all) := by
  constructor
  · intro s idx
    dsimp only [tickTaskStep]
    by_cases hc :
        releaseCond (serveTimers s.time (s.taskAry (s.suspendedTaskIdAry idx))) = true
    · rw [if_pos hc]
      simp only [releaseCond, Bool.or_eq_true, Bool.and_eq_true, bne_iff_ne,
        beq_iff_eq, Bool.not_eq_true', serveTimers_eventMask,
        serveTimers_waitForAnyEvent] at hc
      refine ⟨?_, ?_, ?_⟩
      · simp only [upd_self, serveTimers_eventMask, true_iff]
        exact hc
      · intro _
        refine ⟨?_, ?_, rfl⟩
        · simp only [serveTimers_prioClass, upd2_self]
        · simp only [serveTimers_prioClass, upd_self]
      · intro hfalse
        cases hfalse
    · rw [if_neg hc]
      simp only [releaseCond, Bool.or_eq_true, Bool.and_eq_true, bne_iff_ne,
        beq_iff_eq, Bool.not_eq_true', serveTimers_eventMask,
        serveTimers_waitForAnyEvent] at hc
      refine ⟨?_, ?_, ?_⟩
      · simp only [upd_self, serveTimers_eventMask, Bool.false_eq_true, false_iff]
        exact hc
      · intro htrue
        cases htrue
      · intro _
        exact ⟨fun p => rfl, rfl, fun i => rfl⟩
  · intro NP NT eventMask all timeout s
    simp [waitForEvent, upd]

/-- Witness for C5: at `sC5` the release condition fires and task 0 is appended to the
due list of class 0 with the suspended count decremented; the wait service stores the
negated all-flag. -/
theorem C5_release_condition_witness :
    (tickTaskStep sC5 0).fst.dueTaskIdAryAry 0 0 = 0
    ∧ (tickTaskStep sC5 0).fst.noSuspendedTasks = 0
    ∧ ((waitForEvent 1 1 3 true 5 sC5).taskAry 1).waitForAnyEvent = false := by
  have h := C5_release_condition
  have hrel : (tickTaskStep sC5 0).snd = true := by decide
  have hmove := ((h.1 sC5 0).2.1) hrel
  exact ⟨hmove.1, hmove.2.2, h.2 1 1 3 true 5 sC5⟩

/-- Claim C6 (amended): on every invocation of the tick service the cyclic system time
is first incremented by one (and the initial value `_time = (uintTime_t)-1` makes the
first invocation see time 0); for each suspended task *inspected by the loop*, a
positive delay counter is decremented and the delay-timer event bit becomes set exactly
when the counter reaches zero (i.e. when it was 1), and the absolute-timer event bit
becomes set exactly when the new time equals the task's `timeDueAt`; the last conjunct
ties the per-task timer service to the loop iteration of `onTimerTic`.  Not every
suspended task is inspected on every tick: when a task is released, the decremented
count with unconditionally incremented loop index skips the entry shifted into the
released slot until the next tick (see the counterexample `C6_counterexample`). -/
theorem C6_tick_service :
    (∀ NP s, (onTimerTic NP s).fst.time = (s.time + 1) % 256)
  ∧ (∀ NP s, s.time = time_init → (onTimerTic NP s).fst.time = 0)
  ∧ (∀ time pT, 0 < pT.cntDelay → (serveTimers time pT).cntDelay = pT.cntDelay - 1)
  ∧ (∀ time pT, pT.cntDelay = 0 → (serveTimers time pT).cntDelay = 0)
  ∧ (∀ time pT, (serveTimers time pT).postedEventVec.testBit 15
      = (pT.postedEventVec.testBit 15 || decide (pT.cntDelay = 1)))
  ∧ (∀ time pT, (serveTimers time pT).postedEventVec.testBit 14
      = (pT.postedEventVec.testBit 14 || decide (time = pT.timeDueAt)))
  ∧ (∀ s idx, (tickTaskStep s idx).fst.taskAry (s.suspendedTaskIdAry idx)
      = serveTimers s.time (s.taskAry (s.suspendedTaskIdAry idx))) := by
  have htime : ∀ NP s, (onTimerTic NP s).fst.time = (s.time + 1) % 256 := by
    intro NP s
    simp only [onTimerTic]
    rw [tickPickStage_time, tickLoop_time]
  refine ⟨htime, ?_, ?_, ?_, ?_, ?_, ?_⟩
  · intro NP s h
    rw [htime NP s, h]
    rfl
  · intro time pT h
    simp [serveTimers, h]
  · intro time pT h
    simp [serveTimers, h]
  · intro time pT
    have habs15 : RTOS_EVT_ABSOLUTE_TIMER.testBit 15 = false := by decide
    have hdel15 : RTOS_EVT_DELAY_TIMER.testBit 15 = true := by decide
    by_cases hd : 0 < pT.cntDelay <;>
      by_cases h1 : pT.cntDelay = 1 <;>
        by_cases ht : time = pT.timeDueAt <;>
          first
          | (have hne : ¬(pT.cntDelay - 1 = 0) := by omega
             simp [serveTimers, hd, h1, hne, ht, Nat.testBit_lor, habs15, hdel15])
          | simp [serveTimers, hd, h1, ht, Nat.testBit_lor, habs15, hdel15]
  · intro time pT
    have habs14 : RTOS_EVT_ABSOLUTE_TIMER.testBit 14 = true := by decide
    have hdel14 : RTOS_EVT_DELAY_TIMER.testBit 14 = false := by decide
    by_cases hd : 0 < pT.cntDelay <;>
      by_cases h1 : pT.cntDelay - 1 = 0 <;>
        by_cases ht : time = pT.timeDueAt <;>
          simp [serveTimers, hd, h1, ht, Nat.testBit_lor, habs14, hdel14]
  · intro s idx
    dsimp only [tickTaskStep]
    split <;> simp [upd_self]

/-- Witness for C6: the first tick on `sC6` sees time 0, and the timer service
decrements the delay counter from 3 to 2 without setting the delay-timer bit. -/
theorem C6_tick_service_witness :
    (onTimerTic 1 sC6).fst.time = 0
    ∧ (serveTimers 0 (sC6.taskAry 0)).cntDelay = 2
    ∧ (serveTimers 0 (sC6.taskAry 0)).postedEventVec.testBit 15 = false := by
  have h := C6_tick_service
  refine ⟨h.2.1 1 sC6 rfl, ?_, ?_⟩
  · have := h.2.2.1 0 (sC6.taskAry 0) (by decide)
    simpa using this
  · have := h.2.2.2.2.1 0 (sC6.taskAry 0)
    simpa using this

/-- Claim C6 (counterexample): the tick service does not serve the timers of every
suspended task.  At `sC6skip`, task 0 (slot 0) is released by its absolute-timer event,
the count drops to 1 and the loop index moves to 1, so task 1 — shifted into slot 0 and
still in the suspended list after the tick — is never inspected: its positive delay
counter stays at 3 instead of being decremented, and its absolute-timer event bit stays
clear although the new time 5 equals its `timeDueAt` 5. -/
theorem C6_counterexample :
    (onTimerTic 1 sC6skip).fst.time = 5
    ∧ taskInSuspendedList (onTimerTic 1 sC6skip).fst 1 = true
    ∧ (sC6skip.taskAry 1).cntDelay = 3
    ∧ ((onTimerTic 1 sC6skip).fst.taskAry 1).cntDelay = 3
    ∧ (sC6skip.taskAry 1).timeDueAt = 5
    ∧ ((onTimerTic 1 sC6skip).fst.taskAry 1).postedEventVec.testBit 14 = false := by
  decide

/-- Claim C8: whenever the scheduler re-picks the active task it scans the priority
classes from the highest index downward and selects the head (index 0) of the first
non-empty due list; in the wait services the idle task (ID `NT`) is selected when every
due list is empty.  The third conjunct records that `onTimerTic` performs its
re-selection through `tickPickStage`, and the fourth conjunct states the same scan for
that stage (the tick service enters it only when a task was just made due, so some due
list is non-empty there). -/
theorem C8_active_task_selection :
    (∀ NP NT eventMask all timeout s,
      ((∀ p, p < NP →
          (waitForEvent NP NT eventMask all timeout s).noDueTasksAry p = 0) →
        (waitForEvent NP NT eventMask all timeout s).activeTaskId = NT)
      ∧ (∀ p, p < NP →
          0 < (waitForEvent NP NT eventMask all timeout s).noDueTasksAry p →
          (∀ q, p < q → q < NP →
            (waitForEvent NP NT eventMask all timeout s).noDueTasksAry q = 0) →
          (waitForEvent NP NT eventMask all timeout s).activeTaskId
            = (waitForEvent NP NT eventMask all timeout s).dueTaskIdAryAry p 0))
  ∧ (∀ NP NT delta s,
      ((∀ p, p < NP → (suspendTaskTillTime NP NT delta s).noDueTasksAry p = 0) →
        (suspendTaskTillTime NP NT delta s).activeTaskId = NT)
      ∧ (∀ p, p < NP →
          0 < (suspendTaskTillTime NP NT delta s).noDueTasksAry p →
          (∀ q, p < q → q < NP →
            (suspendTaskTillTime NP NT delta s).noDueTasksAry q = 0) →
          (suspendTaskTillTime NP NT delta s).activeTaskId
            = (suspendTaskTillTime NP NT delta s).dueTaskIdAryAry p 0))
  ∧ (∀ NP s, onTimerTic NP s
      = tickPickStage NP
          (tickLoop s.noSuspendedTasks 0 { s with time := (s.time + 1) % 256 } false).fst
          (tickLoop s.noSuspendedTasks 0 { s with time := (s.time + 1) % 256 } false).snd)
  ∧ (∀ NP (s1 : RTOSState) p, p < NP → 0 < s1.noDueTasksAry p →
      (∀ q, p < q → q < NP → s1.noDueTasksAry q = 0) →
      (tickPickStage NP s1 true).fst.activeTaskId = s1.dueTaskIdAryAry p 0) := by
  refine ⟨?_, ?_, ?_, ?_⟩
  · intro NP NT eventMask all timeout s
    constructor
    · intro h
      simp only [waitForEvent] at h ⊢
      exact pickDue_getD_none _ _ _ _ h
    · intro p hp h0 ha
      simp only [waitForEvent] at h0 ha ⊢
      exact pickDue_getD_head _ _ _ _ p hp h0 ha
  · intro NP NT delta s
    constructor
    · intro h
      simp only [suspendTaskTillTime] at h ⊢
      exact pickDue_getD_none _ _ _ _ h
    · intro p hp h0 ha
      simp only [suspendTaskTillTime] at h0 ha ⊢
      exact pickDue_getD_head _ _ _ _ p hp h0 ha
  · intro NP s
    rfl
  · intro NP s1 p hp h0 ha
    unfold tickPickStage
    rw [pickDue_eq_head s1.noDueTasksAry s1.dueTaskIdAryAry NP p hp h0 ha]
    rfl

/-- Witness for C8: after task 0 of `sC8` waits, the highest non-empty class is 0 and
its head (task 1) becomes active; the tick re-selection stage picks the head 5. -/
theorem C8_active_task_selection_witness :
    (waitForEvent 2 2 RTOS_EVT_DELAY_TIMER false 5 sC8).activeTaskId
      = (waitForEvent 2 2 RTOS_EVT_DELAY_TIMER false 5 sC8).dueTaskIdAryAry 0 0
    ∧ (tickPickStage 1 sC8tick true).fst.activeTaskId = sC8tick.dueTaskIdAryAry 0 0 := by
  refine ⟨?_, ?_⟩
  · exact (C8_active_task_selection.1 2 2 RTOS_EVT_DELAY_TIMER false 5 sC8).2 0
      (by decide) (by decide)
      (by
        intro q h1 h2
        have hq : q = 1 := by omega
        subst hq
        decide)
  · exact C8_active_task_selection.2.2.2 1 sC8tick 0 (by decide) (by decide)
      (by intro q h1 h2; omega)

/-- Claim C3 (against the spec model, the code being absent from the sources): an
overrun is flagged exactly when the current tick is strictly after `timeDueAt` — i.e.
exactly when the true lateness is some k with 0 < k < 128 ticks (half the cycle); the
per-task counter stays within the uint8 range and saturates at 255 instead of
wrapping; and `rtos_getTaskOverrunCounter` returns the count with an optional reset. -/
theorem C3_overrun_model :
    (∀ time timeDueAt, time < 256 → timeDueAt < 256 →
      (timeIsStrictlyAfter time timeDueAt = true ↔
        ∃ k, 0 < k ∧ k < 128 ∧ time = (timeDueAt + k) % 256))
  ∧ (∀ cnt flagged, cnt ≤ 255 →
      overrunCounterUpdate cnt flagged ≤ 255
      ∧ (flagged = true → cnt < 255 → overrunCounterUpdate cnt flagged = cnt + 1)
      ∧ (flagged = false → overrunCounterUpdate cnt flagged = cnt)
      ∧ (cnt = 255 → overrunCounterUpdate cnt flagged = 255))
  ∧ (∀ cnt doReset,
      (rtos_getTaskOverrunCounter cnt doReset).fst = cnt
      ∧ (doReset = true → (rtos_getTaskOverrunCounter cnt doReset).snd = 0)
      ∧ (doReset = false → (rtos_getTaskOverrunCounter cnt doReset).snd = cnt)) := by
  refine ⟨?_, ?_, ?_⟩
  · intro time timeDueAt ht hd
    simp only [timeIsStrictlyAfter, Bool.and_eq_true, decide_eq_true_eq]
    constructor
    · rintro ⟨h1, h2⟩
      exact ⟨(time + 256 - timeDueAt % 256) % 256, h1, h2, by omega⟩
    · rintro ⟨k, hk1, hk2, hk3⟩
      constructor <;> omega
  · intro cnt flagged hcnt
    refine ⟨?_, ?_, ?_, ?_⟩
    · simp only [overrunCounterUpdate]
      split_ifs <;> omega
    · intro hf hlt
      subst hf
      simp [overrunCounterUpdate, hlt]
    · intro hf
      subst hf
      simp [overrunCounterUpdate]
    · intro hc
      subst hc
      simp [overrunCounterUpdate]
  · intro cnt doReset
    refine ⟨rfl, ?_, ?_⟩
    · intro h
      subst h
      rfl
    · intro h
      subst h
      rfl

/-- Witness for C3: tick 5 is strictly after due time 3 (lateness 2); the counter
saturates at 255 and counts 4 → 5; reading with reset returns the count and zeroes
the counter. -/
theorem C3_overrun_model_witness :
    timeIsStrictlyAfter 5 3 = true
    ∧ overrunCounterUpdate 255 true = 255
    ∧ overrunCounterUpdate 4 true = 5
    ∧ (rtos_getTaskOverrunCounter 7 true).fst = 7
    ∧ (rtos_getTaskOverrunCounter 7 true).snd = 0 := by
  have h := C3_overrun_model
  exact ⟨(h.1 5 3 (by decide) (by decide)).mpr ⟨2, by decide, by decide, by decide⟩,
         (h.2.1 255 true (by decide)).2.2.2 rfl,
         (h.2.1 4 true (by decide)).2.1 rfl (by decide),
         (h.2.2 7 true).1,
         (h.2.2 7 true).2.1 rfl⟩

/-- Witness for C4 (amended): applying the theorem at the concrete idle state `sC4`. -/
theorem C4_no_idle_check_witness :
    (waitForEvent 1 1 RTOS_EVT_DELAY_TIMER false 5 sC4).noDueTasksAry 0 = 255
    ∧ (waitForEvent 1 1 RTOS_EVT_DELAY_TIMER false 5 sC4).noSuspendedTasks = 1
    ∧ (waitForEvent 1 1 RTOS_EVT_DELAY_TIMER false 5 sC4).suspendedTaskIdAry 1 = 1 := by
  have h := C4_no_idle_check 1 1 RTOS_EVT_DELAY_TIMER false 5 sC4 rfl rfl
  exact ⟨h.1, h.2.1, h.2.2⟩

/-- Witness for C7 (amended): timeout 5 yields delay counter 6. -/
theorem C7_delay_counter_witness :
    ((waitForEvent 1 1 RTOS_EVT_DELAY_TIMER false 5 sC2).taskAry 0).cntDelay = 6 ∧
    (5 : Nat) < 255 :=
  ⟨C7_delay_counter 1 1 RTOS_EVT_DELAY_TIMER false 5 sC2 (by decide), by decide⟩

/-- Witness for C10: at the maximum timeout 255 the counter stays 255 and is not 0. -/
theorem C10_delay_guard_witness :
    ((waitForEvent 1 1 RTOS_EVT_DELAY_TIMER false 255 sC2).taskAry 0).cntDelay = 255
    ∧ ((waitForEvent 1 1 RTOS_EVT_DELAY_TIMER false 255 sC2).taskAry 0).cntDelay ≠ 0 := by
  have h := C10_delay_guard 1 1 RTOS_EVT_DELAY_TIMER false 255 sC2 (by decide)
  exact ⟨h.1 rfl, h.2.2⟩

end RTuinOS
